import Mathlib

/-
Verification of the loop-closing subsystem of gidobot/stereo_slam
(src/src/loop_closing.cpp), shallowly embedded in Lean 4.

Descriptor rows, keypoints and 3-D points are only counted and carried by
the loop-closing control flow, never inspected, so they are embedded as
small concrete types.  Floating-point similarity scores are embedded as
rationals (only their ordering is ever used).  Rigid transforms
(tf::Transform) are embedded as an arbitrary type with multiplication
(composition) and inverse.

External collaborators (the pose graph, OpenCV's solvePnPRansac, the haloc
hash, and the helpers of tools.h, which are not part of the two source
files) are embedded as function parameters, bundled in the `Ext` record.
-/

set_option genSizeOfSpec false
set_option genInjectivity false

namespace StereoSlam

/-- One descriptor row (content opaque to the loop-closing code). -/
abbrev Desc := Int

/-- One 2-D keypoint. -/
abbrev KeyPt := Int × Int

/-- One 3-D world point. -/
abbrev Pt3 := Int × Int × Int

/-- A hash vector as produced by the haloc hash (vector of floats; embedded
as rationals). -/
abbrev HashVec := List ℚ

/-- The part of a `Cluster` that the loop-closing code reads.  The camera
pose is owned by the external graph and fetched by id, so it is not stored
here (`LoopClosing` only forwards it to logging). -/
structure Cluster where
  id : Int
  frame_id : Int
  kp : List KeyPt
  ldb : List Desc
  points : List Pt3

/-- The record serialized per cluster by `processNewCluster`
(lines 124-129: frame_id, kp, desc, points). -/
structure StoredCluster where
  frame_id : Int
  kp : List KeyPt
  ldb : List Desc
  points : List Pt3

/-- External collaborators of LoopClosing, parameterized by the transform
type `T`:
* `ratioMatching` — `Tools::ratioMatching` (tools.h, not under src/).
  Modelled from the spec: ratio-test descriptor matching that, for each
  query row, keeps at most its best train match; it returns the kept
  (queryIdx, trainIdx) pairs.
* `solvePnPRansac` — OpenCV RANSAC 3-point pose estimation followed by
  `Tools::buildTransformation(rvec, tvec)`: returns the inlier indices
  into the match list and the estimated camera transform.
* `findClosestVertices`, `getFrameVertices`, `getVertexFrameId`,
  `getVertexPose`, `getVertexPoseRelativeToCamera` — the external `Graph`.
* `hashFn` / `matchFn` — `hash_.getHash` and `hash_.match` of libhaloc.
* the `LC_*` configuration constants (external parameters). -/
structure Ext (T : Type) where
  ratioMatching : List Desc → List Desc → List (Nat × Nat)
  solvePnPRansac : List Pt3 → List KeyPt → List Nat × T
  findClosestVertices : Int → Int → Int → Int → List Int
  getFrameVertices : Int → List Int
  getVertexFrameId : Int → Int
  getVertexPose : Int → T
  getVertexPoseRelativeToCamera : Int → T
  hashFn : List Desc → HashVec
  matchFn : HashVec → HashVec → ℚ
  LC_DISCARD_WINDOW : Int
  LC_NEIGHBORS : Int
  LC_MIN_INLIERS : Nat

/-- The driver-owned state of `LoopClosing`: the cluster queue, the hash
table `hash_table_`, the loop-closure record list `lc_found_`, and the
on-disk cluster store (a map from cluster id to the serialized record;
`none` models both an absent file and a file that cannot be opened). -/
structure LCState where
  cluster_queue : List Cluster
  hash_table : List (Int × HashVec)
  lc_found : List (Int × Int)
  store : Int → Option StoredCluster

/-- The sentinel returned by `readCluster` on a store miss (the
default-constructed `Cluster` of line 594).  Modelled from the spec: the
`Cluster` class is not under src/; the spec calls a cluster with zero
descriptor rows the valid "empty" sentinel for a store miss. -/
def emptyCluster : Cluster := ⟨0, 0, [], [], []⟩

/-- `LoopClosing::readCluster` (lines 591-619): returns the sentinel when
the file does not exist or cannot be opened, otherwise rebuilds the
cluster from the stored record (the camera pose it also fetches from the
graph is dropped here, since no embedded operation reads it). -/
def readCluster (store : Int → Option StoredCluster) (id : Int) : Cluster :=
  match store id with
  | none => emptyCluster
  | some s => ⟨id, s.frame_id, s.kp, s.ldb, s.points⟩

/-- `LoopClosing::processNewCluster` (lines 107-130): pop the queue head,
append one `(id, hash)` entry to the hash table, and serialize the cluster
into the store.  (The lazy `hash_.init` call touches only the internal
basis of the external haloc hash, which is part of `hashFn` here.) -/
def processNewCluster {T : Type} (ext : Ext T) (st : LCState) : LCState :=
  match st.cluster_queue with
  | [] => st
  | c :: rest =>
    { cluster_queue := rest
      hash_table := st.hash_table ++ [(c.id, ext.hashFn c.ldb)]
      lc_found := st.lc_found
      store := fun i => if i = c.id then some ⟨c.frame_id, c.kp, c.ldb, c.points⟩
                        else st.store i }

/-- The `no_candidates` list of `getCandidates` (lines 549-556): for each
recorded loop closure touching `cluster_id`, the partner id, in record
order. -/
def noCandidates (lc_found : List (Int × Int)) (cluster_id : Int) : List Int :=
  lc_found.foldl (fun acc pr =>
    let acc1 := if pr.1 = cluster_id then acc ++ [pr.2] else acc
    if pr.2 = cluster_id then acc1 ++ [pr.1] else acc1) []

/-- The query hash fetched by `getCandidates` (line 559):
`hash_table_[cluster_id]` — the table is indexed by the cluster id itself. -/
def queryHash (hash_table : List (Int × HashVec)) (cluster_id : Int) : HashVec :=
  (hash_table.getD cluster_id.toNat (0, [])).2

/-- The `all_matchings` accumulation of `getCandidates` (lines 561-579):
skip entries inside the open discard window, the query itself, and
blacklisted partners; score the rest against the query hash. -/
def allMatchings {T : Type} (ext : Ext T) (hash_table : List (Int × HashVec))
    (lc_found : List (Int × Int)) (cluster_id : Int) : List (Int × ℚ) :=
  let no_cands := noCandidates lc_found cluster_id
  let hash_q := queryHash hash_table cluster_id
  hash_table.foldl (fun acc entry =>
    if cluster_id - ext.LC_DISCARD_WINDOW < entry.1 ∧
       entry.1 < cluster_id + ext.LC_DISCARD_WINDOW then acc
    else if entry.1 = cluster_id then acc
    else if entry.1 ∈ no_cands then acc
    else acc ++ [(entry.1, ext.matchFn hash_q entry.2)]) []

/-- Insert into a list already sorted by descending similarity.  Modelled
from the spec: the comparator `Tools::sortByMatching` lives in tools.h,
not under src/; the spec says "Rank descending by similarity". -/
def insertDesc (x : Int × ℚ) : List (Int × ℚ) → List (Int × ℚ)
  | [] => [x]
  | y :: ys => if y.2 ≤ x.2 then x :: y :: ys else y :: insertDesc x ys

/-- Sort by descending similarity (the `sort` call of line 582, with the
spec-modelled descending comparator). -/
def sortDesc (l : List (Int × ℚ)) : List (Int × ℚ) := l.foldr insertDesc []

/-- `LoopClosing::getCandidates` (lines 540-589): empty unless the hash
table is strictly larger than the discard window; otherwise the 5 best
scored entries, best first. -/
def getCandidates {T : Type} (ext : Ext T) (hash_table : List (Int × HashVec))
    (lc_found : List (Int × Int)) (cluster_id : Int) : List (Int × ℚ) :=
  if (hash_table.length : Int) ≤ ext.LC_DISCARD_WINDOW then []
  else (sortDesc (allMatchings ext hash_table lc_found cluster_id)).take 5

/-- C's `round(100.0 * m / mn)` for nonnegative arguments, in exact
arithmetic: the integer nearest to `100*m/mn` (half rounded up), i.e.
`⌊100*m/mn + 1/2⌋ = (200*m + mn) / (2*mn)` in natural division
(line 212 of the source). -/
def roundPercent (m mn : Nat) : Nat := (200 * m + mn) / (2 * mn)

/-- Stage 1 of `closeLoopWithCluster` (lines 205-212): the rounded match
percentage of the ratio-test matches against the smaller of the two
descriptor row counts. -/
def matchPercentage {T : Type} (ext : Ext T) (c_cluster candidate : Cluster) : Nat :=
  roundPercent (ext.ratioMatching c_cluster.ldb candidate.ldb).length
    (min c_cluster.ldb.length candidate.ldb.length)

/-- The aggregated candidate-side pool of stage 2: descriptors, world
points and keypoints, each row tagged in `ids` with the structural vertex
id it came from. -/
structure CandPool where
  desc : List Desc
  points : List Pt3
  kp : List KeyPt
  ids : List Int

/-- Stage 2, candidate side (lines 218-260): start from the candidate's
own rows (ids replicated per world point, line 233-234), then for each
structural neighbor returned by the graph, skip it when its stored
descriptor matrix is empty, otherwise concatenate its rows and tag them
with its id (again replicated per world point, lines 258-259). -/
def aggregateCandidate {T : Type} (ext : Ext T) (store : Int → Option StoredCluster)
    (c_cluster candidate : Cluster) : CandPool :=
  (ext.findClosestVertices candidate.id c_cluster.id ext.LC_DISCARD_WINDOW
      ext.LC_NEIGHBORS).foldl
    (fun acc nid =>
      let cn := readCluster store nid
      if cn.ldb.length = 0 then acc
      else ⟨acc.desc ++ cn.ldb, acc.points ++ cn.points, acc.kp ++ cn.kp,
            acc.ids ++ List.replicate cn.points.length cn.id⟩)
    ⟨candidate.ldb, candidate.points, candidate.kp,
     List.replicate candidate.points.length candidate.id⟩

/-- The aggregated current-frame pool of stage 2. -/
structure FramePool where
  desc : List Desc
  kp : List KeyPt
  ids : List Int

/-- Stage 2, frame side (lines 223-224 and 262-286): start from the
current cluster's rows (ids replicated per keypoint, lines 263-264), then
for every other cluster of the same frame, skip the current cluster itself
and empty store reads, otherwise concatenate its rows and tag them with
its id (replicated per keypoint, lines 284-285). -/
def aggregateFrame {T : Type} (ext : Ext T) (store : Int → Option StoredCluster)
    (c_cluster : Cluster) : FramePool :=
  (ext.getFrameVertices c_cluster.frame_id).foldl
    (fun acc fid =>
      if fid = c_cluster.id then acc
      else
        let fc := readCluster store fid
        if fc.ldb.length = 0 then acc
        else ⟨acc.desc ++ fc.ldb, acc.kp ++ fc.kp,
              acc.ids ++ List.replicate fc.kp.length fc.id⟩)
    ⟨c_cluster.ldb, c_cluster.kp, List.replicate c_cluster.kp.length c_cluster.id⟩

/-- Stage 3 (lines 289-290): ratio-test matching between the two
aggregated descriptor pools. -/
def stageMatches {T : Type} (ext : Ext T) (store : Int → Option StoredCluster)
    (c_cluster candidate : Cluster) : List (Nat × Nat) :=
  ext.ratioMatching (aggregateFrame ext store c_cluster).desc
    (aggregateCandidate ext store c_cluster candidate).desc

/-- The `matched_points` vector (line 303): candidate-pool world point per
match, indexed by `trainIdx` (unchecked in the source; out-of-range reads
are embedded as a default). -/
def matchedPoints {T : Type} (ext : Ext T) (store : Int → Option StoredCluster)
    (c_cluster candidate : Cluster) : List Pt3 :=
  (stageMatches ext store c_cluster candidate).map
    (fun m => (aggregateCandidate ext store c_cluster candidate).points.getD m.2 (0, 0, 0))

/-- The `matched_kp` vector (line 302): frame-pool keypoint per match,
indexed by `queryIdx`. -/
def matchedKp {T : Type} (ext : Ext T) (store : Int → Option StoredCluster)
    (c_cluster candidate : Cluster) : List KeyPt :=
  (stageMatches ext store c_cluster candidate).map
    (fun m => (aggregateFrame ext store c_cluster).kp.getD m.1 (0, 0))

/-- The `frame_matchings` vector (line 305): frame-pool vertex id per
match. -/
def frameMatchings {T : Type} (ext : Ext T) (store : Int → Option StoredCluster)
    (c_cluster candidate : Cluster) : List Int :=
  (stageMatches ext store c_cluster candidate).map
    (fun m => (aggregateFrame ext store c_cluster).ids.getD m.1 0)

/-- The `candidate_matchings` vector (line 306): candidate-pool vertex id
per match. -/
def candidateMatchings {T : Type} (ext : Ext T) (store : Int → Option StoredCluster)
    (c_cluster candidate : Cluster) : List Int :=
  (stageMatches ext store c_cluster candidate).map
    (fun m => (aggregateCandidate ext store c_cluster candidate).ids.getD m.2 0)

/-- Stage 4 (lines 310-314): RANSAC pose estimation on the matched 3-D /
2-D correspondences — inlier indices into the match list, plus the
transform built from `rvec`/`tvec`. -/
def stageRansac {T : Type} (ext : Ext T) (store : Int → Option StoredCluster)
    (c_cluster candidate : Cluster) : List Nat × T :=
  ext.solvePnPRansac (matchedPoints ext store c_cluster candidate)
    (matchedKp ext store c_cluster candidate)

/-- One step of the stage-5 vote (lines 346-368): find the pair in the
accumulated table and bump its count, or append it with count 1. -/
def bumpPair (acc : List ((Int × Int) × Nat)) (p : Int × Int) :
    List ((Int × Int) × Nat) :=
  match acc with
  | [] => [(p, 1)]
  | (q, n) :: rest => if q = p then (q, n + 1) :: rest else (q, n) :: bumpPair rest p

/-- Stage 5 (lines 323-369): group the inlier correspondences by
`(frame vertex, candidate vertex)` pair and count the inliers per pair,
in order of first appearance. -/
def votePairs (frame_m candidate_m : List Int) (inliers : List Nat) :
    List ((Int × Int) × Nat) :=
  inliers.foldl (fun acc i => bumpPair acc (frame_m.getD i 0, candidate_m.getD i 0)) []

/-- The per-pair vote table as computed by `closeLoopWithCluster` when it
reaches stage 5. -/
def stagePairs {T : Type} (ext : Ext T) (store : Int → Option StoredCluster)
    (c_cluster candidate : Cluster) : List ((Int × Int) × Nat) :=
  votePairs (frameMatchings ext store c_cluster candidate)
    (candidateMatchings ext store c_cluster candidate)
    (stageRansac ext store c_cluster candidate).1

/-- One `graph_->addEdge(from_v, to_v, transform, weight)` call
(line 386). -/
structure EdgeAction (T : Type) where
  from_v : Int
  to_v : Int
  transform : T
  weight : Nat

/-- Stage 6 (lines 371-389): for each pair with at least 5 votes, emit the
edge `(candidate vertex, frame vertex, pose(cand)⁻¹ * estimated * rel(frame),
votes)` and append `(frame vertex, candidate vertex)` to `lc_found_`. -/
def insertEdges {T : Type} [Mul T] [Inv T] (ext : Ext T) (estimated : T)
    (pairs : List ((Int × Int) × Nat)) : List (EdgeAction T) × List (Int × Int) :=
  pairs.foldl (fun acc pr =>
    if 5 ≤ pr.2 then
      (acc.1 ++ [⟨pr.1.2, pr.1.1,
        (ext.getVertexPose pr.1.2)⁻¹ * estimated *
          ext.getVertexPoseRelativeToCamera pr.1.1, pr.2⟩],
       acc.2 ++ [(pr.1.1, pr.1.2)])
    else acc) ([], [])

/-- The observable outcome of one `closeLoopWithCluster` call: the
returned boolean, the `addEdge` calls, the `lc_found_` appends, and
whether `graph_->update()` was triggered. -/
structure LoopResult (T : Type) where
  valid : Bool
  edges : List (EdgeAction T)
  lc_records : List (Int × Int)
  graph_updated : Bool

/-- `LoopClosing::closeLoopWithCluster` (lines 200-538): stage-1 gate
`m_percentage > 35` (line 215), stage-3 gate `matches_2 ≥ LC_MIN_INLIERS`
(line 292), stage-4 gate `inliers ≥ LC_MIN_INLIERS` (line 318); past all
three gates the RANSAC transform is inverted (line 321), the vote table is
built, the surviving edges are inserted, `update()` is triggered
(line 530) and the call returns true (line 532); any failed gate returns
false (line 537) with no mutation. -/
def closeLoopWithCluster {T : Type} [Mul T] [Inv T] (ext : Ext T)
    (store : Int → Option StoredCluster) (c_cluster candidate : Cluster) :
    LoopResult T :=
  if 35 < matchPercentage ext c_cluster candidate then
    if ext.LC_MIN_INLIERS ≤ (stageMatches ext store c_cluster candidate).length then
      if ext.LC_MIN_INLIERS ≤ (stageRansac ext store c_cluster candidate).1.length then
        let estimated := (stageRansac ext store c_cluster candidate).2⁻¹
        let er := insertEdges ext estimated (stagePairs ext store c_cluster candidate)
        ⟨true, er.1, er.2, true⟩
      else ⟨false, [], [], false⟩
    else ⟨false, [], [], false⟩
  else ⟨false, [], [], false⟩

/-- `LoopClosing::searchByProximity` (lines 132-147): the clusters handed
to the verifier — the stored clusters of the up-to-3 structurally closest
vertices, zero-descriptor reads skipped.  The loop-closure record list is
not consulted. -/
def searchByProximity {T : Type} (ext : Ext T) (st : LCState)
    (c_cluster : Cluster) : List Cluster :=
  ((ext.findClosestVertices c_cluster.id c_cluster.id ext.LC_DISCARD_WINDOW 3).map
      (readCluster st.store)).filter (fun cl => cl.ldb.length ≠ 0)

/-- `LoopClosing::searchByHash` (lines 149-168): the clusters handed to
the verifier — the stored clusters of the hash candidates,
zero-descriptor reads skipped. -/
def searchByHash {T : Type} (ext : Ext T) (st : LCState)
    (c_cluster : Cluster) : List Cluster :=
  ((getCandidates ext st.hash_table st.lc_found c_cluster.id).map
      (fun pr => readCluster st.store pr.1)).filter (fun cl => cl.ldb.length ≠ 0)

/-- Dense-id invariant on the hash table: the id recorded at position `i`
is `i` itself, so that the `hash_table_[cluster_id]` lookup of line 559
fetches the entry of cluster `cluster_id`. -/
def denseIds (hash_table : List (Int × HashVec)) : Prop :=
  ∀ i, (h : i < hash_table.length) → (hash_table.get ⟨i, h⟩).1 = (i : Int)

/- ------------------------------------------------------------------ -/
/- Helper lemmas                                                       -/
/- ------------------------------------------------------------------ -/

lemma mem_insertDesc {x y : Int × ℚ} :
    ∀ {l : List (Int × ℚ)}, y ∈ insertDesc x l ↔ y = x ∨ y ∈ l := by
  intro l
  induction l with
  | nil => simp [insertDesc]
  | cons a l ih =>
    simp only [insertDesc]
    split_ifs with h
    · simp [List.mem_cons]
    · simp only [List.mem_cons, ih]
      tauto

lemma length_insertDesc (x : Int × ℚ) :
    ∀ (l : List (Int × ℚ)), (insertDesc x l).length = l.length + 1 := by
  intro l
  induction l with
  | nil => rfl
  | cons a l ih =>
    simp only [insertDesc]
    split_ifs <;> simp [ih]

lemma mem_sortDesc {y : Int × ℚ} : ∀ {l : List (Int × ℚ)}, y ∈ sortDesc l ↔ y ∈ l := by
  intro l
  induction l with
  | nil => simp [sortDesc]
  | cons a l ih =>
    simp only [sortDesc, List.foldr_cons] at ih ⊢
    rw [mem_insertDesc, ih, List.mem_cons]

lemma length_sortDesc : ∀ (l : List (Int × ℚ)), (sortDesc l).length = l.length := by
  intro l
  induction l with
  | nil => rfl
  | cons a l ih =>
    simp only [sortDesc, List.foldr_cons] at ih ⊢
    rw [length_insertDesc, ih, List.length_cons]

lemma mem_noCandidates_aux (q : Int) :
    ∀ (l : List (Int × Int)) (acc : List Int) (a : Int),
      (a ∈ l.foldl (fun acc pr =>
        let acc1 := if pr.1 = q then acc ++ [pr.2] else acc
        if pr.2 = q then acc1 ++ [pr.1] else acc1) acc ↔
      a ∈ acc ∨ ∃ pr ∈ l, (pr.1 = q ∧ a = pr.2) ∨ (pr.2 = q ∧ a = pr.1)) := by
  intro l
  induction l with
  | nil => intro acc a; simp
  | cons e l ih =>
    intro acc a
    simp only [List.foldl_cons]
    rw [ih]
    by_cases h1 : e.1 = q <;> by_cases h2 : e.2 = q <;>
      simp [h1, h2, List.mem_append, or_assoc]

lemma mem_noCandidates {lc : List (Int × Int)} {q a : Int} :
    a ∈ noCandidates lc q ↔ (q, a) ∈ lc ∨ (a, q) ∈ lc := by
  unfold noCandidates
  rw [mem_noCandidates_aux]
  simp only [List.not_mem_nil, false_or]
  constructor
  · rintro ⟨pr, hpr, ⟨h1, h2⟩ | ⟨h1, h2⟩⟩
    · left
      obtain ⟨x, y⟩ := pr
      simp only at h1 h2
      rw [h1] at hpr
      rw [h2]
      exact hpr
    · right
      obtain ⟨x, y⟩ := pr
      simp only at h1 h2
      rw [h1] at hpr
      rw [h2]
      exact hpr
  · rintro (h | h)
    · exact ⟨(q, a), h, Or.inl ⟨rfl, rfl⟩⟩
    · exact ⟨(a, q), h, Or.inr ⟨rfl, rfl⟩⟩

lemma mem_allMatchings_aux {T : Type} (ext : Ext T) (no_cands : List Int)
    (hash_q : HashVec) (cluster_id : Int) :
    ∀ (l : List (Int × HashVec)) (acc : List (Int × ℚ)) (p : Int × ℚ),
      p ∈ l.foldl (fun acc entry =>
        if cluster_id - ext.LC_DISCARD_WINDOW < entry.1 ∧
           entry.1 < cluster_id + ext.LC_DISCARD_WINDOW then acc
        else if entry.1 = cluster_id then acc
        else if entry.1 ∈ no_cands then acc
        else acc ++ [(entry.1, ext.matchFn hash_q entry.2)]) acc →
      p ∈ acc ∨ (¬(cluster_id - ext.LC_DISCARD_WINDOW < p.1 ∧
                   p.1 < cluster_id + ext.LC_DISCARD_WINDOW) ∧
                 p.1 ≠ cluster_id ∧ p.1 ∉ no_cands) := by
  intro l
  induction l with
  | nil => intro acc p hp; exact Or.inl hp
  | cons e l ih =>
    intro acc p hp
    simp only [List.foldl_cons] at hp
    by_cases h1 : cluster_id - ext.LC_DISCARD_WINDOW < e.1 ∧
        e.1 < cluster_id + ext.LC_DISCARD_WINDOW
    · rw [if_pos h1] at hp; exact ih _ p hp
    · rw [if_neg h1] at hp
      by_cases h2 : e.1 = cluster_id
      · rw [if_pos h2] at hp; exact ih _ p hp
      · rw [if_neg h2] at hp
        by_cases h3 : e.1 ∈ no_cands
        · rw [if_pos h3] at hp; exact ih _ p hp
        · rw [if_neg h3] at hp
          rcases ih _ p hp with hacc | hgood
          · rcases List.mem_append.mp hacc with hacc | hnew
            · exact Or.inl hacc
            · right
              have hpe : p = (e.1, ext.matchFn hash_q e.2) := List.mem_singleton.mp hnew
              rw [hpe]
              exact ⟨h1, h2, h3⟩
          · exact Or.inr hgood

lemma mem_allMatchings {T : Type} {ext : Ext T} {table : List (Int × HashVec)}
    {lc : List (Int × Int)} {q : Int} {p : Int × ℚ}
    (hp : p ∈ allMatchings ext table lc q) :
    ¬(q - ext.LC_DISCARD_WINDOW < p.1 ∧ p.1 < q + ext.LC_DISCARD_WINDOW) ∧
    p.1 ≠ q ∧ p.1 ∉ noCandidates lc q := by
  unfold allMatchings at hp
  rcases mem_allMatchings_aux ext (noCandidates lc q) (queryHash table q) q
      table [] p hp with h | h
  · simp at h
  · exact h

lemma mem_getCandidates {T : Type} {ext : Ext T} {table : List (Int × HashVec)}
    {lc : List (Int × Int)} {q : Int} {p : Int × ℚ}
    (hp : p ∈ getCandidates ext table lc q) :
    ¬(q - ext.LC_DISCARD_WINDOW < p.1 ∧ p.1 < q + ext.LC_DISCARD_WINDOW) ∧
    p.1 ≠ q ∧ p.1 ∉ noCandidates lc q := by
  unfold getCandidates at hp
  split_ifs at hp with h
  · simp at hp
  · exact mem_allMatchings (mem_sortDesc.mp (List.mem_of_mem_take hp))

lemma insertEdges_eq_aux {T : Type} [Mul T] [Inv T] (ext : Ext T) (est : T) :
    ∀ (pairs : List ((Int × Int) × Nat)) (a : List (EdgeAction T))
      (b : List (Int × Int)),
      pairs.foldl (fun acc pr =>
        if 5 ≤ pr.2 then
          (acc.1 ++ [⟨pr.1.2, pr.1.1,
            (ext.getVertexPose pr.1.2)⁻¹ * est *
              ext.getVertexPoseRelativeToCamera pr.1.1, pr.2⟩],
           acc.2 ++ [(pr.1.1, pr.1.2)])
        else acc) (a, b) =
      (a ++ (pairs.filter (fun pr => 5 ≤ pr.2)).map (fun pr =>
          ⟨pr.1.2, pr.1.1, (ext.getVertexPose pr.1.2)⁻¹ * est *
            ext.getVertexPoseRelativeToCamera pr.1.1, pr.2⟩),
       b ++ (pairs.filter (fun pr => 5 ≤ pr.2)).map (fun pr => pr.1)) := by
  intro pairs
  induction pairs with
  | nil => intro a b; simp
  | cons p l ih =>
    intro a b
    simp only [List.foldl_cons]
    by_cases h : 5 ≤ p.2
    · rw [if_pos h, ih]
      simp [List.filter_cons, h]
    · rw [if_neg h, ih]
      simp [List.filter_cons, h]

lemma insertEdges_eq {T : Type} [Mul T] [Inv T] (ext : Ext T) (est : T)
    (pairs : List ((Int × Int) × Nat)) :
    insertEdges ext est pairs =
      ((pairs.filter (fun pr => 5 ≤ pr.2)).map (fun pr =>
          ⟨pr.1.2, pr.1.1, (ext.getVertexPose pr.1.2)⁻¹ * est *
            ext.getVertexPoseRelativeToCamera pr.1.1, pr.2⟩),
       (pairs.filter (fun pr => 5 ≤ pr.2)).map (fun pr => pr.1)) := by
  unfold insertEdges
  rw [insertEdges_eq_aux ext est pairs [] []]
  simp

lemma roundPercent_bounds (m mn : ℕ) (h : 0 < mn) :
    2 * mn * roundPercent m mn ≤ 200 * m + mn ∧
    200 * m + mn < 2 * mn * roundPercent m mn + 2 * mn := by
  have h2 : 0 < 2 * mn := by omega
  have hdm : 2 * mn * roundPercent m mn + (200 * m + mn) % (2 * mn) =
      200 * m + mn := Nat.div_add_mod (200 * m + mn) (2 * mn)
  have hmod : (200 * m + mn) % (2 * mn) < 2 * mn := Nat.mod_lt _ h2
  constructor
  · exact hdm ▸ Nat.le_add_right _ _
  · rw [← hdm]
    exact Nat.add_lt_add_left hmod _

lemma denseIds_getD {t : List (Int × HashVec)} (h : denseIds t) {i : ℕ}
    (hi : i < t.length) : (t.getD i ((0 : Int), ([] : HashVec))).1 = (i : Int) := by
  rw [List.getD_eq_getElem _ _ hi]
  have := h i hi
  simpa [List.get_eq_getElem] using this

lemma denseIds_append {t : List (Int × HashVec)} (h : denseIds t) (x : Int × HashVec)
    (hx : x.1 = (t.length : Int)) : denseIds (t ++ [x]) := by
  intro i hi
  rw [List.length_append, List.length_singleton] at hi
  simp only [List.get_eq_getElem]
  rcases Nat.lt_or_ge i t.length with hlt | hge
  · rw [List.getElem_append_left hlt]
    exact h i hlt
  · have hieq : i = t.length := Nat.le_antisymm (Nat.lt_succ_iff.mp hi) hge
    rw [List.getElem_concat_length _ _ _ hieq]
    rw [hx, hieq]

lemma sortDesc_take_eq_nil {l : List (Int × ℚ)} :
    (sortDesc l).take 5 = [] ↔ l = [] := by
  rw [List.take_eq_nil_iff]
  constructor
  · rintro (h | h)
    · exact absurd h (by omega)
    · have := length_sortDesc l
      rw [h] at this
      exact List.eq_nil_of_length_eq_zero this.symm
  · intro h
    right
    rw [h]
    rfl

lemma roundPercent_le_100 {m mn : ℕ} (h : 0 < mn) (hm : m ≤ mn) :
    roundPercent m mn ≤ 100 := by
  have h2 : 0 < 2 * mn := Nat.mul_pos (by norm_num) h
  have key : 200 * m + mn < 101 * (2 * mn) := by
    calc 200 * m + mn ≤ 200 * mn + mn :=
          Nat.add_le_add_right (Nat.mul_le_mul_left 200 hm) mn
      _ < 101 * (2 * mn) := by omega
  exact Nat.lt_succ_iff.mp ((Nat.div_lt_iff_lt_mul h2).mpr key)

instance (t : List (Int × HashVec)) : Decidable (denseIds t) :=
  Nat.decidableBallLT t.length (fun i h => (t.get ⟨i, h⟩).1 = (i : Int))

/- ------------------------------------------------------------------ -/
/- Concrete instances used by counterexamples and witnesses            -/
/- ------------------------------------------------------------------ -/

/-- A trivial external environment: no matches, no neighbors, discard
window 2, minimum inlier count 6 (the spec's example default). -/
def extA : Ext ℚ where
  ratioMatching := fun _ _ => []
  solvePnPRansac := fun _ _ => ([], 1)
  findClosestVertices := fun _ _ _ _ => []
  getFrameVertices := fun _ => []
  getVertexFrameId := fun _ => 0
  getVertexPose := fun _ => 1
  getVertexPoseRelativeToCamera := fun _ => 1
  hashFn := fun _ => []
  matchFn := fun _ _ => 0
  LC_DISCARD_WINDOW := 2
  LC_NEIGHBORS := 2
  LC_MIN_INLIERS := 6

/-- An always-empty store. -/
def store0 : Int → Option StoredCluster := fun _ => none

/-- A current cluster with 6 keypoints / descriptors / world points. -/
def cC : Cluster :=
  ⟨10, 100, [(0, 0), (1, 1), (2, 2), (3, 3), (4, 4), (5, 5)],
   [1, 2, 3, 4, 5, 6],
   [(0, 0, 0), (1, 1, 1), (2, 2, 2), (3, 3, 3), (4, 4, 4), (5, 5, 5)]⟩

/-- A candidate cluster with 4 keypoints / descriptors / world points. -/
def cN : Cluster :=
  ⟨2, 20, [(0, 0), (1, 1), (2, 2), (3, 3)], [11, 12, 13, 14],
   [(0, 0, 1), (0, 0, 2), (0, 0, 3), (0, 0, 4)]⟩

/-- A small current cluster with 2 rows (id 10). -/
def cP : Cluster := ⟨10, 100, [(0, 0), (1, 1)], [1, 2], [(0, 0, 0), (1, 1, 1)]⟩

/-- A small candidate cluster with 1 row (id 2). -/
def cQ : Cluster := ⟨2, 20, [(0, 0)], [11], [(0, 0, 1)]⟩

/-- A 5-row current cluster (id 10). -/
def cR : Cluster :=
  ⟨10, 100, [(0, 0), (1, 1), (2, 2), (3, 3), (4, 4)], [1, 2, 3, 4, 5],
   [(0, 0, 0), (1, 1, 1), (2, 2, 2), (3, 3, 3), (4, 4, 4)]⟩

/-- A 5-row candidate cluster (id 2). -/
def cS : Cluster :=
  ⟨2, 20, [(0, 0), (1, 1), (2, 2), (3, 3), (4, 4)], [11, 12, 13, 14, 15],
   [(0, 0, 1), (0, 0, 2), (0, 0, 3), (0, 0, 4), (0, 0, 5)]⟩

/-- The stored record of the candidate's structural neighbor (vertex 3),
with one row. -/
def sc3 : StoredCluster := ⟨30, [(0, 0)], [21], [(1, 0, 0)]⟩

/-- A store holding only vertex 3. -/
def storeB : Int → Option StoredCluster := fun i => if i = 3 then some sc3 else none

/-- An environment (minimum inlier count 2 — an external configuration
value) whose verification run on `cP` / `cQ` passes all three gates but
spreads the 2 RANSAC inliers over two structural pairs (1 vote each,
both below 5): stage-1 matching yields 1 of min 1 rows (100% > 35%), the
aggregated pools are 2 and 2 rows (candidate plus its neighbor 3), the
stage-3 matching yields 2 matches, and RANSAC declares both inliers. -/
def extB : Ext ℚ :=
  { extA with
    ratioMatching := fun d1 d2 =>
      if d1.length = 2 ∧ d2.length = 1 then [(0, 0)]
      else if d1.length = 2 ∧ d2.length = 2 then [(0, 0), (1, 1)]
      else []
    solvePnPRansac := fun _ _ => ([0, 1], 2)
    findClosestVertices := fun cid _ _ _ => if cid = 2 then [3] else []
    LC_MIN_INLIERS := 2 }

/-- An environment (minimum inlier count 5) whose run on `cR` / `cS`
matches the two 5-row descriptor sets row by row, with all 5 RANSAC
inliers voting for the single structural pair (10, 2). -/
def extE : Ext ℚ :=
  { extA with
    ratioMatching := fun d1 d2 =>
      if d1.length = 5 ∧ d2.length = 5 then
        [(0, 0), (1, 1), (2, 2), (3, 3), (4, 4)]
      else []
    solvePnPRansac := fun _ _ => ([0, 1, 2, 3, 4], 2)
    LC_MIN_INLIERS := 5 }

/-- An environment whose proximity search always proposes vertex 3. -/
def extC2 : Ext ℚ := { extA with findClosestVertices := fun _ _ _ _ => [3] }

/-- A current cluster with id 7. -/
def c7 : Cluster := ⟨7, 70, [(0, 0)], [1], [(0, 0, 0)]⟩

/-- A state whose loop-closure record list already contains the pair
(7, 3). -/
def st2 : LCState := ⟨[], [], [(7, 3)], storeB⟩

/-- An environment with discard window 1 (for hash-search witnesses). -/
def extD : Ext ℚ := { extA with LC_DISCARD_WINDOW := 1 }

/-- A three-entry hash table with dense ids 0, 1, 2. -/
def htD : List (Int × HashVec) := [(0, []), (1, []), (2, [])]

/-- A loop-closure record list not involving cluster 0. -/
def lcD : List (Int × Int) := [(5, 9)]

/-- An environment returning 6 ratio matches against a 3-row candidate. -/
def extF : Ext ℚ :=
  { extA with
    ratioMatching := fun d1 d2 =>
      if d1.length = 6 ∧ d2.length = 3 then
        [(0, 0), (1, 1), (2, 2), (3, 0), (4, 1), (5, 2)]
      else [] }

/-- A candidate cluster with only 3 descriptor rows. -/
def n3 : Cluster :=
  ⟨4, 40, [(0, 0), (1, 1), (2, 2)], [31, 32, 33],
   [(0, 1, 0), (0, 2, 0), (0, 3, 0)]⟩

/-- A two-entry hash table (exactly as many entries as `extA`'s discard
window). -/
def htG : List (Int × HashVec) := [(0, []), (1, [])]

/-- A state whose queue holds the single cluster `cC`. -/
def stQ : LCState := ⟨[cC], [], [], store0⟩

/-- A cluster with id 1, the next dense id after a one-entry table. -/
def cW : Cluster := ⟨1, 50, [], [5], []⟩

/-- A state with a one-entry dense hash table and `cW` queued. -/
def stW : LCState := ⟨[cW], [((0 : Int), ([] : HashVec))], [], store0⟩

/- ------------------------------------------------------------------ -/
/- Claim theorems                                                      -/
/- ------------------------------------------------------------------ -/

/-- C1, counterexample: a verification run that passes the
match-percentage, raw-match and RANSAC gates but whose vote table holds
two pairs with 1 inlier each (both below 5) returns success while
inserting no edge and recording no loop closure — so success is not
equivalent to reaching stage 6 with a surviving pair. -/
theorem C1_counterexample :
    closeLoopWithCluster extB storeB cP cQ = ⟨true, [], [], true⟩ ∧
    (stagePairs extB storeB cP cQ).filter (fun pr => 5 ≤ pr.2) = [] :=
  ⟨rfl, rfl⟩

/-- C1, amended: `closeLoopWithCluster` returns success if and only if it
passes the match-percentage gate, the raw-match minimum and the RANSAC
inlier minimum — reaching stage 6 at all, regardless of whether any
structural pair survives the 5-vote filter — and whenever it abandons at
an earlier stage it returns failure with no edge insertion, no
loop-closure record and no graph update. -/
theorem C1_gate_characterization {T : Type} [Mul T] [Inv T] (ext : Ext T)
    (store : Int → Option StoredCluster) (c_cluster candidate : Cluster) :
    ((closeLoopWithCluster ext store c_cluster candidate).valid = true ↔
      (35 < matchPercentage ext c_cluster candidate ∧
       ext.LC_MIN_INLIERS ≤ (stageMatches ext store c_cluster candidate).length ∧
       ext.LC_MIN_INLIERS ≤ (stageRansac ext store c_cluster candidate).1.length)) ∧
    ((closeLoopWithCluster ext store c_cluster candidate).valid = false →
      (closeLoopWithCluster ext store c_cluster candidate).edges = [] ∧
      (closeLoopWithCluster ext store c_cluster candidate).lc_records = [] ∧
      (closeLoopWithCluster ext store c_cluster candidate).graph_updated = false) := by
  unfold closeLoopWithCluster
  split_ifs with h1 h2 h3 <;> simp_all

/-- C1, witness: the gate characterization applied to a concrete
verification run abandoned at stage 1. -/
theorem C1_witness :
    (closeLoopWithCluster extA store0 cC cN).valid = false ∧
    (closeLoopWithCluster extA store0 cC cN).edges = [] ∧
    (closeLoopWithCluster extA store0 cC cN).lc_records = [] ∧
    (closeLoopWithCluster extA store0 cC cN).graph_updated = false :=
  ⟨rfl, (C1_gate_characterization extA store0 cC cN).2 rfl⟩

/-- C2, counterexample: with loop closure (7, 3) already recorded, the
proximity search still proposes vertex 3 as a candidate for cluster 7 —
the proximity strategy does not consult the record list. -/
theorem C2_counterexample :
    st2.lc_found = [(7, 3)] ∧ c7.id = 7 ∧
    (searchByProximity extC2 st2 c7).map Cluster.id = [3] :=
  ⟨rfl, rfl, rfl⟩

/-- C2, amended: the hash search never proposes a recorded pair again, in
either orientation — once `(a, b)` is in the record list, no candidate
returned for query `a` is `b` and vice versa; the proximity search does
not consult the record list at all. -/
theorem C2_hash_blacklist {T : Type} (ext : Ext T)
    (table : List (Int × HashVec)) (lc : List (Int × Int)) (q : Int)
    (p : Int × ℚ) (hp : p ∈ getCandidates ext table lc q) :
    (q, p.1) ∉ lc ∧ (p.1, q) ∉ lc := by
  have h := (mem_getCandidates hp).2.2
  rw [mem_noCandidates] at h
  push_neg at h
  exact h

/-- C2, witness: the blacklist exclusion applied to a concrete hash
candidate. -/
theorem C2_witness :
    ((1 : Int), (0 : ℚ)) ∈ getCandidates extD htD lcD 0 ∧
    ((0 : Int), (1 : Int)) ∉ lcD ∧ ((1 : Int), (0 : Int)) ∉ lcD :=
  ⟨List.Mem.head _, C2_hash_blacklist extD htD lcD 0 (1, 0) (List.Mem.head _)⟩

/-- C3: when the verifier reaches stage 6, the inserted edges are exactly
the vote-table pairs with at least 5 supporting inliers, each inserted as
`addEdge(candidateVertex, currentVertex, pose(candidate)⁻¹ ·
(ransacOutput)⁻¹ · poseRelativeToCamera(current), weight = inlier count)`
— the estimated transform being the inverse of the RANSAC output — and
the recorded pairs are exactly those same pairs; pairs with fewer than 5
inliers produce no edge. -/
theorem C3_edge_insertion {T : Type} [Mul T] [Inv T] (ext : Ext T)
    (store : Int → Option StoredCluster) (c_cluster candidate : Cluster)
    (h1 : 35 < matchPercentage ext c_cluster candidate)
    (h2 : ext.LC_MIN_INLIERS ≤ (stageMatches ext store c_cluster candidate).length)
    (h3 : ext.LC_MIN_INLIERS ≤ (stageRansac ext store c_cluster candidate).1.length) :
    (closeLoopWithCluster ext store c_cluster candidate).edges =
      ((stagePairs ext store c_cluster candidate).filter (fun pr => 5 ≤ pr.2)).map
        (fun pr => ⟨pr.1.2, pr.1.1,
          (ext.getVertexPose pr.1.2)⁻¹ *
            (stageRansac ext store c_cluster candidate).2⁻¹ *
            ext.getVertexPoseRelativeToCamera pr.1.1, pr.2⟩) ∧
    (closeLoopWithCluster ext store c_cluster candidate).lc_records =
      ((stagePairs ext store c_cluster candidate).filter (fun pr => 5 ≤ pr.2)).map
        (fun pr => pr.1) := by
  unfold closeLoopWithCluster
  rw [if_pos h1, if_pos h2, if_pos h3]
  simp [insertEdges_eq]

/-- C3, witness: the edge construction applied to a concrete run whose 5
inliers all vote for the single structural pair (10, 2). -/
theorem C3_witness :
    35 < matchPercentage extE cR cS ∧
    extE.LC_MIN_INLIERS ≤ (stageMatches extE store0 cR cS).length ∧
    extE.LC_MIN_INLIERS ≤ (stageRansac extE store0 cR cS).1.length ∧
    ((closeLoopWithCluster extE store0 cR cS).edges =
      ((stagePairs extE store0 cR cS).filter (fun pr => 5 ≤ pr.2)).map
        (fun pr => ⟨pr.1.2, pr.1.1,
          (extE.getVertexPose pr.1.2)⁻¹ * (stageRansac extE store0 cR cS).2⁻¹ *
            extE.getVertexPoseRelativeToCamera pr.1.1, pr.2⟩) ∧
     (closeLoopWithCluster extE store0 cR cS).lc_records =
      ((stagePairs extE store0 cR cS).filter (fun pr => 5 ≤ pr.2)).map
        (fun pr => pr.1)) := by
  have h1 : 35 < matchPercentage extE cR cS := by decide
  have h2 : extE.LC_MIN_INLIERS ≤ (stageMatches extE store0 cR cS).length := by
    decide
  have h3 : extE.LC_MIN_INLIERS ≤ (stageRansac extE store0 cR cS).1.length := by
    decide
  exact ⟨h1, h2, h3, C3_edge_insertion extE store0 cR cS h1 h2 h3⟩

/-- C4, counterexample: a pair of clusters with 6 and 3 descriptor rows
(both non-zero) for which the ratio matcher returns 6 matches yields a
match percentage of 200 — the stage-1 percentage can exceed 100. -/
theorem C4_counterexample :
    cC.ldb.length = 6 ∧ n3.ldb.length = 3 ∧
    0 < min cC.ldb.length n3.ldb.length ∧
    matchPercentage extF cC n3 = 200 :=
  ⟨rfl, rfl, by decide, rfl⟩

/-- C4, amended: writing `m` for the number of ratio matches, `mn` for the
smaller descriptor count (`mn > 0`) and `p` for the stage-1 percentage,
`p` satisfies `2·mn·p ≤ 200·m + mn < 2·mn·p + 2·mn` — dividing through by
`2·mn`, this says `100·m/mn - 1/2 < p ≤ 100·m/mn + 1/2`, so `p` is
exactly `100·m/mn` rounded to the nearest integer (ties upward, as C's
`round`) — and `p ≤ 100` whenever `m ≤ mn`; but not in general, since the
matcher may return up to `rows(C)` matches. -/
theorem C4_percentage {T : Type} (ext : Ext T) (c n : Cluster)
    (hmn : 0 < min c.ldb.length n.ldb.length) :
    (2 * min c.ldb.length n.ldb.length * matchPercentage ext c n ≤
        200 * (ext.ratioMatching c.ldb n.ldb).length +
          min c.ldb.length n.ldb.length ∧
      200 * (ext.ratioMatching c.ldb n.ldb).length +
          min c.ldb.length n.ldb.length <
        2 * min c.ldb.length n.ldb.length * matchPercentage ext c n +
          2 * min c.ldb.length n.ldb.length) ∧
    ((ext.ratioMatching c.ldb n.ldb).length ≤ min c.ldb.length n.ldb.length →
      matchPercentage ext c n ≤ 100) := by
  unfold matchPercentage
  exact ⟨roundPercent_bounds _ _ hmn, fun hm => roundPercent_le_100 hmn hm⟩

/-- C4, witness: the rounding bounds applied to a run with 1 match over a
minimum of 1 row (percentage 100). -/
theorem C4_witness :
    0 < min cP.ldb.length cQ.ldb.length ∧
    (2 * min cP.ldb.length cQ.ldb.length * matchPercentage extB cP cQ ≤
        200 * (extB.ratioMatching cP.ldb cQ.ldb).length +
          min cP.ldb.length cQ.ldb.length ∧
      200 * (extB.ratioMatching cP.ldb cQ.ldb).length +
          min cP.ldb.length cQ.ldb.length <
        2 * min cP.ldb.length cQ.ldb.length * matchPercentage extB cP cQ +
          2 * min cP.ldb.length cQ.ldb.length) ∧
    ((extB.ratioMatching cP.ldb cQ.ldb).length ≤
        min cP.ldb.length cQ.ldb.length →
      matchPercentage extB cP cQ ≤ 100) :=
  ⟨by decide, C4_percentage extB cP cQ (by decide)⟩

/-- C6, counterexample: with a discard window of 2 and exactly 2 clusters
processed — not fewer than the window — the hash search still returns
the empty list, so emptiness is not equivalent to having fewer than `W`
clusters of history. -/
theorem C6_counterexample :
    getCandidates extA htG [] 1 = [] ∧ htG.length = 2 ∧
    extA.LC_DISCARD_WINDOW = 2 ∧ ¬(htG.length < 2) :=
  ⟨rfl, rfl, rfl, by decide⟩

/-- C6, amended: the hash search returns the empty list iff the number of
processed clusters is at most the discard window (the guard is `≤ W`, a
silent skip, not `< W`) or every stored hash is eliminated by the
window / self / blacklist filters. -/
theorem C6_empty_characterization {T : Type} (ext : Ext T)
    (table : List (Int × HashVec)) (lc : List (Int × Int)) (q : Int) :
    getCandidates ext table lc q = [] ↔
      ((table.length : Int) ≤ ext.LC_DISCARD_WINDOW ∨
        allMatchings ext table lc q = []) := by
  unfold getCandidates
  split_ifs with h
  · simp [h]
  · simp only [h, false_or]
    exact sortDesc_take_eq_nil

/-- C7: reading a cluster id absent from the store returns the empty
sentinel (which has zero descriptor rows), and both search strategies
filter zero-descriptor candidates out before the verifier ever sees them,
so such a candidate reaches neither RANSAC nor any graph mutation. -/
theorem C7_sentinel_and_skip :
    (∀ (store : Int → Option StoredCluster) (id : Int), store id = none →
      readCluster store id = emptyCluster) ∧
    emptyCluster.ldb.length = 0 ∧
    (∀ {T : Type} (ext : Ext T) (st : LCState) (c cl : Cluster),
      cl ∈ searchByProximity ext st c → cl.ldb.length ≠ 0) ∧
    (∀ {T : Type} (ext : Ext T) (st : LCState) (c cl : Cluster),
      cl ∈ searchByHash ext st c → cl.ldb.length ≠ 0) := by
  refine ⟨?_, rfl, ?_, ?_⟩
  · intro store id h
    unfold readCluster
    rw [h]
  · intro T ext st c cl hcl
    unfold searchByProximity at hcl
    have := List.of_mem_filter hcl
    simpa using this
  · intro T ext st c cl hcl
    unfold searchByHash at hcl
    have := List.of_mem_filter hcl
    simpa using this

/-- C7, witness: the sentinel equation applied to a concrete missing id
and the skip property applied to a concrete proximity proposal. -/
theorem C7_witness :
    store0 (5 : Int) = none ∧
    readCluster store0 5 = emptyCluster ∧
    readCluster storeB 3 ∈ searchByProximity extC2 st2 c7 ∧
    (readCluster storeB 3).ldb.length ≠ 0 :=
  ⟨rfl, C7_sentinel_and_skip.1 store0 5 rfl, List.Mem.head _,
   C7_sentinel_and_skip.2.2.1 extC2 st2 c7 (readCluster storeB 3)
     (List.Mem.head _)⟩

/-- C9: a cluster dequeued and written to the store by
`processNewCluster`, then immediately read back under its id, yields the
same frame id, the same number of keypoints, the same number of
descriptor rows and the same number of world points. -/
theorem C9_roundtrip {T : Type} (ext : Ext T) (st : LCState) (c : Cluster)
    (rest : List Cluster) (hq : st.cluster_queue = c :: rest) :
    (readCluster (processNewCluster ext st).store c.id).frame_id = c.frame_id ∧
    (readCluster (processNewCluster ext st).store c.id).kp.length = c.kp.length ∧
    (readCluster (processNewCluster ext st).store c.id).ldb.length = c.ldb.length ∧
    (readCluster (processNewCluster ext st).store c.id).points.length =
      c.points.length := by
  have h : processNewCluster ext st =
      { cluster_queue := rest
        hash_table := st.hash_table ++ [(c.id, ext.hashFn c.ldb)]
        lc_found := st.lc_found
        store := fun i => if i = c.id then some ⟨c.frame_id, c.kp, c.ldb, c.points⟩
                          else st.store i } := by
    unfold processNewCluster
    rw [hq]
  rw [h]
  simp [readCluster]

/-- C9, witness: the round trip applied to a concrete queued cluster. -/
theorem C9_witness :
    stQ.cluster_queue = cC :: [] ∧
    (readCluster (processNewCluster extA stQ).store cC.id).frame_id = cC.frame_id ∧
    (readCluster (processNewCluster extA stQ).store cC.id).kp.length = cC.kp.length ∧
    (readCluster (processNewCluster extA stQ).store cC.id).ldb.length = cC.ldb.length ∧
    (readCluster (processNewCluster extA stQ).store cC.id).points.length =
      cC.points.length :=
  ⟨rfl, C9_roundtrip extA stQ cC [] rfl⟩

/-- C10: `processNewCluster` appends exactly one hash-table entry per
dequeued cluster, carrying that cluster's id; if the table satisfies the
dense-id invariant and the dequeued cluster's id equals the table length
(ids assigned densely in processing order), the invariant is preserved;
and under the invariant the `hash_table_[cluster_id]` lookup used by
`getCandidates` fetches precisely the entry recorded for that cluster id,
whose hash is the query hash. -/
theorem C10_dense_ids {T : Type} (ext : Ext T) (st : LCState) (c : Cluster)
    (rest : List Cluster) (hq : st.cluster_queue = c :: rest) :
    ((processNewCluster ext st).hash_table =
        st.hash_table ++ [(c.id, ext.hashFn c.ldb)]) ∧
    (denseIds st.hash_table → c.id = (st.hash_table.length : Int) →
      denseIds (processNewCluster ext st).hash_table) ∧
    (∀ (table : List (Int × HashVec)) (q : Int), denseIds table →
      0 ≤ q → q.toNat < table.length →
        (table.getD q.toNat ((0 : Int), ([] : HashVec))).1 = q ∧
        queryHash table q = (table.getD q.toNat ((0 : Int), ([] : HashVec))).2) := by
  have hpt : (processNewCluster ext st).hash_table =
      st.hash_table ++ [(c.id, ext.hashFn c.ldb)] := by
    unfold processNewCluster
    rw [hq]
  refine ⟨hpt, ?_, ?_⟩
  · intro hd hc
    rw [hpt]
    exact denseIds_append hd _ hc
  · intro table q hd hq0 hlen
    refine ⟨?_, rfl⟩
    have h := denseIds_getD hd hlen
    rwa [Int.toNat_of_nonneg hq0] at h

/-- C10, witness: the dense-id bookkeeping applied to a concrete state
whose table holds the single entry for cluster 0 and whose queued cluster
has id 1. -/
theorem C10_witness :
    stW.cluster_queue = cW :: [] ∧
    (processNewCluster extA stW).hash_table =
      stW.hash_table ++ [(cW.id, extA.hashFn cW.ldb)] ∧
    denseIds (processNewCluster extA stW).hash_table ∧
    (htD.getD (1 : Int).toNat ((0 : Int), ([] : HashVec))).1 = 1 :=
  ⟨rfl, (C10_dense_ids extA stW cW [] rfl).1,
   (C10_dense_ids extA stW cW [] rfl).2.1 (by decide) rfl,
   ((C10_dense_ids extA stW cW [] rfl).2.2 htD 1 (by decide) (by decide)
     (by decide)).1⟩

end StereoSlam
